import Mathlib

/-!
Verification of the captcha-solver backend adapters of flathunter
(`flathunter/captcha/imagetyperz_solver.py` and
`flathunter/captcha/twocaptcha_solver.py`).

The Python code is shallowly embedded: each network-facing operation is
modelled as a pure function from the HTTP response body (or a scripted list
of successive poll bodies) to either a value or the Python exception the
code would raise.  The pieces of the Python standard library the adapters
rely on (`json.loads`, `str.split`, `str.startswith`, substring `in`,
`urllib.parse.urlparse`) are modelled executably below.
-/

/-- Exceptions that can escape the adapter operations.  `httpError` stands
for `requests.HTTPError` (the spec's `TransientServiceError`),
`captchaUnsolvable` for `CaptchaUnsolvableError` (`ChallengeUnsolvableError`),
`captchaBalanceEmpty` for `CaptchaBalanceEmpty` (`BalanceExhaustedError`).
The remaining constructors are raw Python exceptions (`json.JSONDecodeError`,
`KeyError`, `IndexError`, `TypeError`) that are not part of the spec's
closed error taxonomy. -/
inductive PyErr where
  | httpError
  | captchaUnsolvable
  | captchaBalanceEmpty
  | jsonDecodeError
  | keyError
  | indexError
  | typeError
deriving DecidableEq, Repr

/-- The spec's closed error taxonomy (section 4.2), as the set of escaping
exceptions that correspond to one of its kinds.  `UnsupportedOperationError`
has no corresponding exception because neither adapter raises one. -/
def inErrorTaxonomy : PyErr → Bool
  | .httpError => true
  | .captchaUnsolvable => true
  | .captchaBalanceEmpty => true
  | _ => false

mutual
/-- JSON values, as produced by Python's `json.loads`: objects keep their
key/value pairs in document order (Python's dict gives later duplicates
precedence on lookup). -/
inductive Json where
  | null
  | bool (b : Bool)
  | num (lit : String)
  | str (s : String)
  | arr (xs : JsonList)
  | obj (kvs : JsonKVs)
deriving DecidableEq, Repr
inductive JsonList where
  | nil
  | cons (hd : Json) (tl : JsonList)
deriving DecidableEq, Repr
inductive JsonKVs where
  | nil
  | cons (key : String) (val : Json) (tl : JsonKVs)
deriving DecidableEq, Repr
end

/-- Drops leading JSON whitespace, as Python's json scanner does. -/
def skipWs : List Char → List Char
  | c :: rest =>
    if c = ' ' ∨ c = '\n' ∨ c = '\t' ∨ c = '\r' then skipWs rest else c :: rest
  | [] => []

/-- Consumes the literal `lit` from the head of `s`, returning the rest. -/
def parseLit : List Char → List Char → Option (List Char)
  | [], rest => some rest
  | l :: ls, c :: rest => if c = l then parseLit ls rest else none
  | _ :: _, [] => none

/-- Value of one hexadecimal digit. -/
def jsonHexVal (c : Char) : Option Nat :=
  if '0'.toNat ≤ c.toNat ∧ c.toNat ≤ '9'.toNat then some (c.toNat - '0'.toNat)
  else if 'a'.toNat ≤ c.toNat ∧ c.toNat ≤ 'f'.toNat then some (c.toNat - 'a'.toNat + 10)
  else if 'A'.toNat ≤ c.toNat ∧ c.toNat ≤ 'F'.toNat then some (c.toNat - 'A'.toNat + 10)
  else none

/-- JSON string escape characters after a backslash. -/
def jsonEscChar : Char → Option Char
  | '"' => some '"'
  | '\\' => some '\\'
  | '/' => some '/'
  | 'b' => some (Char.ofNat 8)
  | 'f' => some (Char.ofNat 12)
  | 'n' => some '\n'
  | 'r' => some '\r'
  | 't' => some '\t'
  | _ => none

/-- Reads the body of a JSON string after its opening quote, up to and
including the closing quote; returns the decoded characters and the rest of
the input.  Unescaped control characters are rejected, as in Python's strict
mode.  (Surrogate-pair recombination of two adjacent `\uXXXX` escapes is not
modelled; no claim depends on it.) -/
def jsonStrAux : Nat → List Char → Option (List Char × List Char)
  | _, '"' :: rest => some ([], rest)
  | 0, _ => none
  | fuel + 1, '\\' :: esc =>
    match esc with
    | 'u' :: h1 :: h2 :: h3 :: h4 :: rest => do
      let a ← jsonHexVal h1
      let b ← jsonHexVal h2
      let c ← jsonHexVal h3
      let d ← jsonHexVal h4
      let (out, rem) ← jsonStrAux fuel rest
      some (Char.ofNat (((a * 16 + b) * 16 + c) * 16 + d) :: out, rem)
    | e :: rest => do
      let c ← jsonEscChar e
      let (out, rem) ← jsonStrAux fuel rest
      some (c :: out, rem)
    | [] => none
  | fuel + 1, c :: rest =>
    if c.toNat < 32 then none
    else do
      let (out, rem) ← jsonStrAux fuel rest
      some (c :: out, rem)
  | _, [] => none

/-- Longest run of leading decimal digits. -/
def takeDigits : List Char → List Char × List Char
  | c :: rest =>
    if c.isDigit then
      let (ds, rem) := takeDigits rest
      (c :: ds, rem)
    else ([], c :: rest)
  | [] => ([], [])

/-- Integer part of a JSON number: a single `0`, or a nonzero digit followed
by digits. -/
def jsonIntPart : List Char → Option (List Char × List Char)
  | '0' :: rest => some (['0'], rest)
  | c :: rest =>
    if c.isDigit then
      let (ds, rem) := takeDigits rest
      some (c :: ds, rem)
    else none
  | [] => none

/-- Optional fraction part of a JSON number. -/
def jsonFracPart : List Char → Option (List Char × List Char)
  | '.' :: rest =>
    match takeDigits rest with
    | ([], _) => none
    | (ds, rem) => some ('.' :: ds, rem)
  | s => some ([], s)

/-- Optional exponent part of a JSON number. -/
def jsonExpPart : List Char → Option (List Char × List Char)
  | c :: rest =>
    if c = 'e' ∨ c = 'E' then
      let (sign, rest2) :=
        match rest with
        | '+' :: r => (['+'], r)
        | '-' :: r => (['-'], r)
        | r => (([] : List Char), r)
      match takeDigits rest2 with
      | ([], _) => none
      | (ds, rem) => some (c :: (sign ++ ds), rem)
    else some ([], c :: rest)
  | [] => some ([], [])

/-- A complete JSON number token (kept as literal text). -/
def jsonNumTok : List Char → Option (List Char × List Char)
  | '-' :: rest => do
    let (i, r1) ← jsonIntPart rest
    let (f, r2) ← jsonFracPart r1
    let (e, r3) ← jsonExpPart r2
    some ('-' :: (i ++ f ++ e), r3)
  | s => do
    let (i, r1) ← jsonIntPart s
    let (f, r2) ← jsonFracPart r1
    let (e, r3) ← jsonExpPart r2
    some (i ++ f ++ e, r3)

mutual
/-- Recursive-descent JSON value reader (fuel-based; the top-level entry
point supplies ample fuel). -/
def jsonVal : Nat → List Char → Option (Json × List Char)
  | 0, _ => none
  | fuel + 1, s =>
    match skipWs s with
    | [] => none
    | '"' :: rest =>
      (jsonStrAux rest.length rest).map (fun p => (Json.str (String.mk p.1), p.2))
    | '\x7b' :: rest =>
      (match skipWs rest with
       | '\x7d' :: r => some (Json.obj .nil, r)
       | _ => (jsonMembers fuel rest).map (fun p => (Json.obj p.1, p.2)))
    | '[' :: rest =>
      (match skipWs rest with
       | ']' :: r => some (Json.arr .nil, r)
       | _ => (jsonElems fuel rest).map (fun p => (Json.arr p.1, p.2)))
    | 't' :: rest => (parseLit "rue".data rest).map (fun r => (Json.bool true, r))
    | 'f' :: rest => (parseLit "alse".data rest).map (fun r => (Json.bool false, r))
    | 'n' :: rest => (parseLit "ull".data rest).map (fun r => (Json.null, r))
    | s2 => (jsonNumTok s2).map (fun p => (Json.num (String.mk p.1), p.2))

/-- Members of a JSON object, from just after the `\x7b` (or a separating
comma), up to and including the closing `\x7d`. -/
def jsonMembers : Nat → List Char → Option (JsonKVs × List Char)
  | 0, _ => none
  | fuel + 1, s =>
    match skipWs s with
    | '"' :: rest =>
      match jsonStrAux rest.length rest with
      | none => none
      | some (kcs, r1) =>
        match skipWs r1 with
        | ':' :: r2 =>
          match jsonVal fuel r2 with
          | none => none
          | some (v, r3) =>
            match skipWs r3 with
            | ',' :: r4 =>
              (jsonMembers fuel r4).map
                (fun p => (JsonKVs.cons (String.mk kcs) v p.1, p.2))
            | '\x7d' :: r4 => some (JsonKVs.cons (String.mk kcs) v .nil, r4)
            | _ => none
        | _ => none
    | _ => none

/-- Elements of a JSON array, from just after the `[` (or a separating
comma), up to and including the closing `]`. -/
def jsonElems : Nat → List Char → Option (JsonList × List Char)
  | 0, _ => none
  | fuel + 1, s =>
    match jsonVal fuel s with
    | none => none
    | some (v, r1) =>
      match skipWs r1 with
      | ',' :: r2 => (jsonElems fuel r2).map (fun p => (JsonList.cons v p.1, p.2))
      | ']' :: r2 => some (JsonList.cons v .nil, r2)
      | _ => none
end

/-- Model of Python's `json.loads`: parses the whole body as one JSON
document, raising `json.JSONDecodeError` otherwise.  (The non-standard
`NaN`/`Infinity` literals Python additionally accepts are not modelled; no
claim involves them.) -/
def json_loads (body : String) : Except PyErr Json :=
  match jsonVal (2 * body.length + 2) body.data with
  | some (j, rest) =>
    if skipWs rest = [] then .ok j else .error .jsonDecodeError
  | none => .error .jsonDecodeError

/-- Model of the Python subscript `x[0]` on a `json.loads` result: indexes a
list or a string, raises `KeyError` on a dict without the key `0`,
`IndexError` on an empty sequence, `TypeError` on the other value kinds. -/
def pyIndexZero : Json → Except PyErr Json
  | .arr .nil => .error .indexError
  | .arr (.cons x _) => .ok x
  | .obj _ => .error .keyError
  | .str s =>
    match s.data with
    | [] => .error .indexError
    | c :: _ => .ok (.str (String.mk [c]))
  | _ => .error .typeError

/-- Dict lookup where later duplicate keys win, as in Python's json object
decoding. -/
def jsonLookupLast (k : String) : JsonKVs → Option Json
  | .nil => none
  | .cons key v tl =>
    match jsonLookupLast k tl with
    | some r => some r
    | none => if key = k then some v else none

/-- Model of the Python subscript `x[k]` with a string key on a
`json.loads` result: dict lookup raising `KeyError` on a missing key, and
`TypeError` on non-dict values. -/
def pyGetItem (j : Json) (k : String) : Except PyErr Json :=
  match j with
  | .obj kvs =>
    match jsonLookupLast k kvs with
    | some v => .ok v
    | none => .error .keyError
  | _ => .error .typeError

deriving instance DecidableEq for Except

/-- Checks that `needle` matches the chars at the head of `hay`. -/
def leadsWith : List Char → List Char → Bool
  | [], _ => true
  | _ :: _, [] => false
  | a :: ns, b :: hs => a = b && leadsWith ns hs

/-- Model of Python's `s.startswith(p)`. -/
def pyStartsWith (s p : String) : Bool := leadsWith p.data s.data

/-- Occurrence of `needle` anywhere in `hay` (empty needle always occurs). -/
def hasSub (needle : List Char) : List Char → Bool
  | [] => needle.isEmpty
  | c :: rest => leadsWith needle (c :: rest) || hasSub needle rest

/-- Model of Python's substring test `sub in s`. -/
def pyContains (s sub : String) : Bool := hasSub sub.data s.data

/-- Model of Python's `s.lower()` (the adapters only feed it ASCII). -/
def pyLower (s : String) : String := String.mk (s.data.map Char.toLower)

/-- Worker for `pySplit`: left-to-right scan accumulating the current field;
`sep` is non-empty at every use site, and the fuel (the input length) is
ample because every step consumes at least one character. -/
def pySplitGo (sep : List Char) : Nat → List Char → List Char → List (List Char)
  | _, [], acc => [acc.reverse]
  | 0, s, acc => [acc.reverse ++ s]
  | fuel + 1, c :: rest, acc =>
    if leadsWith sep (c :: rest) then
      acc.reverse :: pySplitGo sep fuel ((c :: rest).drop sep.length) []
    else pySplitGo sep fuel rest (c :: acc)

/-- Model of Python's `s.split(sep)` for a non-empty separator. -/
def pySplit (sep s : String) : List String :=
  (pySplitGo sep.data s.data.length s.data []).map String.mk

/-- Worker for `pySplitOnce`: stops after the first separator occurrence. -/
def pySplitOnceGo (sep : List Char) : Nat → List Char → List Char → List (List Char)
  | _, [], acc => [acc.reverse]
  | 0, s, acc => [acc.reverse ++ s]
  | fuel + 1, c :: rest, acc =>
    if leadsWith sep (c :: rest) then
      [acc.reverse, (c :: rest).drop sep.length]
    else pySplitOnceGo sep fuel rest (c :: acc)

/-- Model of Python's `s.split(sep, 1)` for a non-empty separator. -/
def pySplitOnce (sep s : String) : List String :=
  (pySplitOnceGo sep.data s.data.length s.data []).map String.mk

/-- The GeeTest solved-response value (`GeetestResponse` in
`flathunter/captcha/captcha_solver.py`).  Fields hold the raw values the
adapters put in them: decoded JSON values on the JSON path, strings
(wrapped as `Json.str`) on the plain-text paths. -/
structure GeetestResponse where
  challenge : Json
  validate : Json
  seccode : Json
deriving DecidableEq, Repr

/-- The reCAPTCHA solved-response value (`RecaptchaResponse` in
`flathunter/captcha/captcha_solver.py`). -/
structure RecaptchaResponse where
  response : Json
deriving DecidableEq, Repr

/-- Outcome of running a poll loop against a finite script of response
bodies: a solved payload, an escaping exception, or `ranOut` when the
script ended while the loop would keep polling. -/
inductive PollOutcome (α : Type) where
  | success (val : α)
  | failure (err : PyErr)
  | ranOut
deriving DecidableEq, Repr

/-- Observable trace of a poll loop: how many status requests it issued,
how many fixed-interval sleeps it performed, and how it ended. -/
structure PollResult (α : Type) where
  requests : Nat
  sleeps : Nat
  outcome : PollOutcome α
deriving DecidableEq, Repr

namespace CaptchaSolver

/-- Modelled from the spec: `CaptchaSolver.backoff_options` lives in
`flathunter/captcha/captcha_solver.py`, which is not among the given
sources.  Spec sections 4.2/4.3: the retryable-error predicate of the
Backoff Policy is true exactly for `TransientServiceError`
(`requests.HTTPError`) and false for every terminal kind. -/
def retryable : PyErr → Bool
  | .httpError => true
  | _ => false

/-- Modelled from the spec: the Backoff Policy wrapper (spec 4.3) running a
wrapped operation whose i-th attempt yields `f i`, with `rem` attempts
remaining out of the configured maximum.  On a retryable failure it retries
until the attempt budget is spent (the final attempt's error propagates
unchanged); on a terminal error it propagates immediately.  Returns the
number of attempts consumed together with the final result. -/
def backoff_run (f : Nat → Except PyErr α) : Nat → Nat → Nat × Except PyErr α
  | used, 0 => (used, .error .httpError)
  | used, 1 => (used + 1, f used)
  | used, rem + 2 =>
    match f used with
    | .ok v => (used + 1, .ok v)
    | .error e =>
      if retryable e then backoff_run f (used + 1) (rem + 1)
      else (used + 1, .error e)

/-- Modelled from the spec: a call wrapped by the Backoff Policy with a
maximum of `maxTries` attempts. -/
def backoff_call (maxTries : Nat) (f : Nat → Except PyErr α) : Nat × Except PyErr α :=
  backoff_run f 0 maxTries

end CaptchaSolver

/-- Scheme characters allowed by `urllib.parse` after the initial letter. -/
def schemeCharOk (c : Char) : Bool := c.isAlphanum || c = '+' || c = '-' || c = '.'

/-- Splits at the first colon, when there is one. -/
def splitAtColon : List Char → Option (List Char × List Char)
  | [] => none
  | ':' :: rest => some ([], rest)
  | c :: rest => (splitAtColon rest).map (fun p => (c :: p.1, p.2))

/-- Whether the text before the first colon is a valid URL scheme
(letter first, then letters/digits/`+`/`-`/`.`), per `urllib.parse`. -/
def schemeOk : List Char → Bool
  | [] => false
  | c :: rest => c.isAlpha && (c :: rest).all schemeCharOk

/-- Model of `urllib.parse.urlparse(url).scheme`: the lowercased text
before the first colon when it is a valid scheme, else empty. -/
def urlparse_scheme (url : String) : String :=
  match splitAtColon url.data with
  | some (sc, _) => if schemeOk sc then String.mk (sc.map Char.toLower) else ""
  | none => ""

/-- The URL with its scheme (and colon) removed when a valid scheme is
present, as `urllib.parse` does before extracting the network location. -/
def urlRestAfterScheme (url : String) : List Char :=
  match splitAtColon url.data with
  | some (sc, rest) => if schemeOk sc then rest else url.data
  | none => url.data

/-- Characters of the network location: everything up to the first `/`,
`?` or `#`. -/
def takeNetloc : List Char → List Char
  | [] => []
  | c :: rest => if c = '/' ∨ c = '?' ∨ c = '#' then [] else c :: takeNetloc rest

/-- Model of `urllib.parse.urlparse(url).netloc`: present only when the
remainder after the scheme starts with `//`. -/
def urlparse_netloc (url : String) : String :=
  match urlRestAfterScheme url with
  | '/' :: '/' :: rest => String.mk (takeNetloc rest)
  | _ => ""

namespace ImageTyperzSolver

/-- Embedding of `ImageTyperzSolver.__submit_imagetyperz_request`
(imagetyperz_solver.py lines 68-75) as a function of the response body:
raises `requests.HTTPError` when the lowercased body contains `error`,
otherwise returns the body as the captcha id. -/
def submit_imagetyperz_request (body : String) : Except PyErr String :=
  if pyContains (pyLower body) "error" then .error .httpError else .ok body

/-- Embedding of one iteration of the `while True` loop of
`ImageTyperzSolver.__retrieve_imagetyperz_result` (imagetyperz_solver.py
lines 86-107) as a function of the poll response body.  `ok none` means the
iteration hit the Pending branch (sleep five seconds and poll again);
`ok (some r)` means it returned the `Response` payload. -/
def retrieve_imagetyperz_step (body : String) : Except PyErr (Option Json) :=
  if body = "" then .error .httpError
  else do
    let j ← json_loads body
    let response ← pyIndexZero j
    let status ← pyGetItem response "Status"
    if status = Json.str "Pending" then pure none
    else if status = Json.str "ERROR: IMAGE_TIMED_OUT" then .error .captchaUnsolvable
    else if ¬ status = Json.str "Solved" then .error .httpError
    else do
      let r ← pyGetItem response "Response"
      pure (some r)

/-- The retrieve loop of `ImageTyperzSolver.__retrieve_imagetyperz_result`
run against a finite script of successive poll response bodies, recording
the number of status requests and sleeps. -/
def retrieve_imagetyperz_result : List String → PollResult Json
  | [] => ⟨0, 0, .ranOut⟩
  | body :: rest =>
    match retrieve_imagetyperz_step body with
    | .ok none =>
      let r := retrieve_imagetyperz_result rest
      ⟨r.requests + 1, r.sleeps + 1, r.outcome⟩
    | .ok (some v) => ⟨1, 0, .success v⟩
    | .error e => ⟨1, 0, .failure e⟩

/-- The JSON branch of `ImageTyperzSolver.solve_geetest`'s result handling
(imagetyperz_solver.py lines 42-45): three dict lookups, in source order,
whose `KeyError`/`TypeError` failures are not caught. -/
def geetest_from_json (j : Json) : Except PyErr GeetestResponse := do
  let c ← pyGetItem j "geetest_challenge"
  let v ← pyGetItem j "geetest_validate"
  let s ← pyGetItem j "geetest_seccode"
  pure ⟨c, v, s⟩

/-- The delimiter branch of `ImageTyperzSolver.solve_geetest`'s result
handling (imagetyperz_solver.py lines 46-48): split on `;;;` and index the
first three parts, raising `IndexError` when there are fewer. -/
def geetest_from_delims (result : String) : Except PyErr GeetestResponse :=
  let parts := pySplit ";;;" result
  match parts.get? 0, parts.get? 1, parts.get? 2 with
  | some p0, some p1, some p2 => .ok ⟨.str p0, .str p1, .str p2⟩
  | _, _, _ => .error .indexError

/-- Embedding of `ImageTyperzSolver.solve_geetest`'s result handling
(imagetyperz_solver.py lines 40-48) as a function of the retrieved result
text: `json.loads` first, falling back to the `;;;` split only when that
raises `json.decoder.JSONDecodeError`. -/
def parse_geetest_result (result : String) : Except PyErr GeetestResponse :=
  match json_loads result with
  | .ok j => geetest_from_json j
  | .error _ => geetest_from_delims result

/-- Embedding of the `domain` parameter built by
`ImageTyperzSolver.solve_geetest` (imagetyperz_solver.py line 28): the
format string concatenates the parsed scheme, the literal `//` and the
parsed netloc, with no colon in between. -/
def geetest_domain (page_url : String) : String :=
  urlparse_scheme page_url ++ "//" ++ urlparse_netloc page_url

end ImageTyperzSolver

namespace TwoCaptchaSolver

/-- Embedding of `TwoCaptchaSolver.__submit_2captcha_v1_request`
(twocaptcha_solver.py lines 74-82) as a function of the response body:
raises `requests.HTTPError` unless the body starts with `OK`, otherwise
returns `body.split("|")[1]`, whose `IndexError` on a pipe-free body is
not caught. -/
def submit_2captcha_v1_request (body : String) : Except PyErr String :=
  if ¬ pyStartsWith body "OK" then .error .httpError
  else
    match (pySplit "|" body).get? 1 with
    | some jid => .ok jid
    | none => .error .indexError

/-- Embedding of one iteration of the `while True` loop of
`TwoCaptchaSolver.__retrieve_2captcha_v1_result` (twocaptcha_solver.py
lines 96-114) as a function of the poll response body, with the four
substring/startswith checks in source order.  `ok none` is the
`CAPCHA_NOT_READY` branch (sleep five seconds and poll again);
`ok (some s)` returns `body.split("|", 1)[1]`. -/
def retrieve_2captcha_v1_step (body : String) : Except PyErr (Option String) :=
  if pyContains body "CAPCHA_NOT_READY" then .ok none
  else if pyContains body "ERROR_CAPTCHA_UNSOLVABLE" then .error .captchaUnsolvable
  else if pyContains body "ERROR_ZERO_BALANCE" then .error .captchaBalanceEmpty
  else if ¬ pyStartsWith body "OK" then .error .httpError
  else
    match (pySplitOnce "|" body).get? 1 with
    | some rest => .ok (some rest)
    | none => .error .indexError

/-- The retrieve loop of `TwoCaptchaSolver.__retrieve_2captcha_v1_result`
run against a finite script of successive poll response bodies, recording
the number of status requests and sleeps. -/
def retrieve_2captcha_v1_result : List String → PollResult String
  | [] => ⟨0, 0, .ranOut⟩
  | body :: rest =>
    match retrieve_2captcha_v1_step body with
    | .ok none =>
      let r := retrieve_2captcha_v1_result rest
      ⟨r.requests + 1, r.sleeps + 1, r.outcome⟩
    | .ok (some v) => ⟨1, 0, .success v⟩
    | .error e => ⟨1, 0, .failure e⟩

/-- Embedding of `TwoCaptchaSolver.solve_recaptcha` (twocaptcha_solver.py
lines 40-49) against a scripted submit response body and scripted poll
bodies: submit, then poll; the retrieved text becomes the
`RecaptchaResponse` verbatim. -/
def solve_recaptcha (submitBody : String) (pollBodies : List String) :
    PollResult RecaptchaResponse :=
  match submit_2captcha_v1_request submitBody with
  | .error e => ⟨0, 0, .failure e⟩
  | .ok _ =>
    let r := retrieve_2captcha_v1_result pollBodies
    ⟨r.requests, r.sleeps,
      match r.outcome with
      | .success s => .success ⟨.str s⟩
      | .failure e => .failure e
      | .ranOut => .ranOut⟩

end TwoCaptchaSolver

/-- Claim C1: the ImageTyperz GeeTest result handling attempts structured
JSON parsing first and uses the `;;;` split only on JSON parse failure, and
the reference JSON body and the reference delimited body both produce the
identical `GeetestResponse("a","b","c")`. -/
theorem C1_geetest_dual_parsing :
    (∀ result j, json_loads result = .ok j →
      ImageTyperzSolver.parse_geetest_result result
        = ImageTyperzSolver.geetest_from_json j) ∧
    (∀ result e, json_loads result = .error e →
      ImageTyperzSolver.parse_geetest_result result
        = ImageTyperzSolver.geetest_from_delims result) ∧
    ImageTyperzSolver.parse_geetest_result
        "\x7b\"geetest_challenge\":\"a\",\"geetest_validate\":\"b\",\"geetest_seccode\":\"c\"\x7d"
      = .ok ⟨.str "a", .str "b", .str "c"⟩ ∧
    ImageTyperzSolver.parse_geetest_result "a;;;b;;;c"
      = .ok ⟨.str "a", .str "b", .str "c"⟩ := by
  refine ⟨?_, ?_, rfl, rfl⟩
  · intro result j h
    unfold ImageTyperzSolver.parse_geetest_result
    rw [h]
  · intro result e h
    unfold ImageTyperzSolver.parse_geetest_result
    rw [h]

/-- Witness for C1 at the delimited reference body, whose JSON parse fails. -/
theorem C1_geetest_dual_parsing_witness :
    ImageTyperzSolver.parse_geetest_result "a;;;b;;;c"
      = ImageTyperzSolver.geetest_from_delims "a;;;b;;;c" :=
  C1_geetest_dual_parsing.2.1 "a;;;b;;;c" .jsonDecodeError rfl

/-- Claim C10: the `domain` parameter the ImageTyperz adapter builds for a
GeeTest submit is the parsed scheme, then `//`, then the network location,
with no colon after the scheme; in particular `https://example.com/page`
yields `https//example.com`, not `https://example.com`. -/
theorem C10_domain_missing_colon :
    (∀ page_url, ImageTyperzSolver.geetest_domain page_url
      = urlparse_scheme page_url ++ "//" ++ urlparse_netloc page_url) ∧
    ImageTyperzSolver.geetest_domain "https://example.com/page" = "https//example.com" ∧
    ImageTyperzSolver.geetest_domain "https://example.com/page" ≠ "https://example.com" :=
  ⟨fun _ => rfl, rfl, by decide⟩

/-- Claim C8: an empty ImageTyperz poll body makes the poll raise
`requests.HTTPError` (the spec's `TransientServiceError`, retryable under
the Backoff Policy) at once — one status request, no sleep, no loop. -/
theorem C8_empty_poll_body_transient :
    ImageTyperzSolver.retrieve_imagetyperz_step "" = .error .httpError ∧
    (∀ rest, ImageTyperzSolver.retrieve_imagetyperz_result ("" :: rest)
      = ⟨1, 0, .failure .httpError⟩) ∧
    CaptchaSolver.retryable .httpError = true ∧
    inErrorTaxonomy .httpError = true := by
  refine ⟨rfl, ?_, rfl, rfl⟩
  intro rest
  simp [ImageTyperzSolver.retrieve_imagetyperz_result,
    ImageTyperzSolver.retrieve_imagetyperz_step]

/-- Counterexample to claim C2: the non-empty malformed poll body `notjson`
makes the ImageTyperz poll raise `json.JSONDecodeError`, which is none of
the four kinds of the closed error taxonomy. -/
theorem C2_unclassified_decode_error_escapes :
    ImageTyperzSolver.retrieve_imagetyperz_step "notjson" = .error .jsonDecodeError ∧
    inErrorTaxonomy .jsonDecodeError = false := ⟨rfl, rfl⟩

/-- Claim C2 as amended: responses matching the documented shapes are
classified into the closed taxonomy, but malformed bodies escape
unclassified — a non-empty ImageTyperz poll body that fails JSON parsing
raises the decode error unchanged, and the only unclassified escape of the
TwoCaptcha poll is the `IndexError` on an `OK`-prefixed body without a
pipe. -/
theorem C2_classification_with_parse_escapes :
    (∀ body, body ≠ "" → json_loads body = .error .jsonDecodeError →
      ImageTyperzSolver.retrieve_imagetyperz_step body = .error .jsonDecodeError) ∧
    (∀ body e, TwoCaptchaSolver.retrieve_2captcha_v1_step body = .error e →
      inErrorTaxonomy e = true ∨ e = .indexError) ∧
    inErrorTaxonomy .jsonDecodeError = false ∧
    inErrorTaxonomy .indexError = false := by
  refine ⟨?_, ?_, rfl, rfl⟩
  · intro body h h2
    simp only [ImageTyperzSolver.retrieve_imagetyperz_step, h, h2, if_neg, ite_false]
    rfl
  · intro body e h
    unfold TwoCaptchaSolver.retrieve_2captcha_v1_step at h
    split at h
    · cases h
    · split at h
      · cases h
        exact Or.inl rfl
      · split at h
        · cases h
          exact Or.inl rfl
        · split at h
          · cases h
            exact Or.inl rfl
          · split at h
            · cases h
            · cases h
              exact Or.inr rfl

/-- Witness for the amended C2 at the malformed body `notjson` and at the
pipe-free solved body `OKnopipe`. -/
theorem C2_classification_witness :
    ImageTyperzSolver.retrieve_imagetyperz_step "notjson" = .error .jsonDecodeError ∧
    (inErrorTaxonomy PyErr.indexError = true ∨ PyErr.indexError = PyErr.indexError) :=
  ⟨C2_classification_with_parse_escapes.1 "notjson" (by decide) rfl,
   C2_classification_with_parse_escapes.2.1 "OKnopipe" .indexError rfl⟩

/-- Counterexample to claim C3: a poll body containing the
`ERROR_ZERO_BALANCE` marker but also the `CAPCHA_NOT_READY` marker is
treated as pending (the loop sleeps and polls again) because the pending
check runs first — no `BalanceExhaustedError` is raised on that first
poll. -/
theorem C3_zero_balance_masked_by_pending :
    pyContains "ERROR_ZERO_BALANCE CAPCHA_NOT_READY" "ERROR_ZERO_BALANCE" = true ∧
    TwoCaptchaSolver.retrieve_2captcha_v1_result ["ERROR_ZERO_BALANCE CAPCHA_NOT_READY"]
      = ⟨1, 1, .ranOut⟩ := ⟨rfl, rfl⟩

/-- Claim C3 as amended: if the first poll body contains the
`ERROR_ZERO_BALANCE` marker and contains neither of the markers checked
before it (`CAPCHA_NOT_READY`, `ERROR_CAPTCHA_UNSOLVABLE`), the call raises
`CaptchaBalanceEmpty` (the spec's `BalanceExhaustedError`) on that first
poll — one status request, no sleep — and the error is terminal for the
Backoff Policy: a wrapped call failing with it consumes a single attempt
and propagates it at once. -/
theorem C3_zero_balance_first_poll :
    (∀ body rest, pyContains body "ERROR_ZERO_BALANCE" = true →
      pyContains body "CAPCHA_NOT_READY" = false →
      pyContains body "ERROR_CAPTCHA_UNSOLVABLE" = false →
      TwoCaptchaSolver.retrieve_2captcha_v1_result (body :: rest)
        = ⟨1, 0, .failure .captchaBalanceEmpty⟩) ∧
    CaptchaSolver.retryable .captchaBalanceEmpty = false ∧
    (∀ maxTries (f : Nat → Except PyErr String), 1 ≤ maxTries →
      f 0 = .error PyErr.captchaBalanceEmpty →
      CaptchaSolver.backoff_call maxTries f = (1, .error .captchaBalanceEmpty)) := by
  refine ⟨?_, rfl, ?_⟩
  · intro body rest h1 h2 h3
    have hs : TwoCaptchaSolver.retrieve_2captcha_v1_step body
        = .error .captchaBalanceEmpty := by
      simp [TwoCaptchaSolver.retrieve_2captcha_v1_step, h1, h2, h3]
    simp [TwoCaptchaSolver.retrieve_2captcha_v1_result, hs]
  · intro maxTries f h hf
    match maxTries, h with
    | 1, _ =>
      simp [CaptchaSolver.backoff_call, CaptchaSolver.backoff_run, hf]
    | (n + 2), _ =>
      simp [CaptchaSolver.backoff_call, CaptchaSolver.backoff_run, hf,
        CaptchaSolver.retryable]

/-- Witness for the amended C3 at the plain zero-balance body and a wrapped
call that always reports empty balance under a three-attempt budget. -/
theorem C3_zero_balance_witness :
    TwoCaptchaSolver.retrieve_2captcha_v1_result ["ERROR_ZERO_BALANCE"]
      = ⟨1, 0, .failure .captchaBalanceEmpty⟩ ∧
    CaptchaSolver.backoff_call 3
        (fun _ => (.error PyErr.captchaBalanceEmpty : Except PyErr String))
      = (1, .error .captchaBalanceEmpty) :=
  ⟨C3_zero_balance_first_poll.1 "ERROR_ZERO_BALANCE" [] rfl rfl rfl,
   C3_zero_balance_first_poll.2.2 3
     (fun _ => (.error PyErr.captchaBalanceEmpty : Except PyErr String))
     (by decide) rfl⟩

/-- Counterexample to claim C4: a poll body containing the
`ERROR_CAPTCHA_UNSOLVABLE` marker but also the `CAPCHA_NOT_READY` marker is
treated as pending by the TwoCaptcha poll (the pending check runs first),
so no `ChallengeUnsolvableError` is raised for it. -/
theorem C4_unsolvable_masked_by_pending :
    pyContains "CAPCHA_NOT_READY ERROR_CAPTCHA_UNSOLVABLE" "ERROR_CAPTCHA_UNSOLVABLE" = true ∧
    TwoCaptchaSolver.retrieve_2captcha_v1_result ["CAPCHA_NOT_READY ERROR_CAPTCHA_UNSOLVABLE"]
      = ⟨1, 1, .ranOut⟩ := ⟨rfl, rfl⟩

/-- Claim C4 as amended: a TwoCaptcha poll body containing the
`ERROR_CAPTCHA_UNSOLVABLE` marker and not the earlier-checked
`CAPCHA_NOT_READY` marker, and an ImageTyperz poll body whose parsed
`Status` is exactly `ERROR: IMAGE_TIMED_OUT`, each make the solve call
raise `CaptchaUnsolvableError` (the spec's `ChallengeUnsolvableError`,
distinct from `TransientServiceError`) at once; the error is not retryable
under the Backoff Policy. -/
theorem C4_unsolvable_classification :
    (∀ body rest, pyContains body "ERROR_CAPTCHA_UNSOLVABLE" = true →
      pyContains body "CAPCHA_NOT_READY" = false →
      TwoCaptchaSolver.retrieve_2captcha_v1_result (body :: rest)
        = ⟨1, 0, .failure .captchaUnsolvable⟩) ∧
    (∀ body j r rest, body ≠ "" → json_loads body = .ok j →
      pyIndexZero j = .ok r →
      pyGetItem r "Status" = .ok (.str "ERROR: IMAGE_TIMED_OUT") →
      ImageTyperzSolver.retrieve_imagetyperz_result (body :: rest)
        = ⟨1, 0, .failure .captchaUnsolvable⟩) ∧
    CaptchaSolver.retryable .captchaUnsolvable = false ∧
    PyErr.captchaUnsolvable ≠ PyErr.httpError := by
  refine ⟨?_, ?_, rfl, by decide⟩
  · intro body rest h1 h2
    have hs : TwoCaptchaSolver.retrieve_2captcha_v1_step body
        = .error .captchaUnsolvable := by
      simp [TwoCaptchaSolver.retrieve_2captcha_v1_step, h1, h2]
    simp [TwoCaptchaSolver.retrieve_2captcha_v1_result, hs]
  · intro body j r rest h0 h1 h2 h3
    have hs : ImageTyperzSolver.retrieve_imagetyperz_step body
        = .error .captchaUnsolvable := by
      unfold ImageTyperzSolver.retrieve_imagetyperz_step
      rw [if_neg h0, h1]
      show (pyIndexZero j >>= fun response => _) = _
      rw [h2]
      show (pyGetItem r "Status" >>= fun status => _) = _
      rw [h3]
      rfl
    simp [ImageTyperzSolver.retrieve_imagetyperz_result, hs]

/-- Witness for the amended C4 at a plain unsolvable TwoCaptcha body and at
the ImageTyperz timed-out status body. -/
theorem C4_unsolvable_witness :
    TwoCaptchaSolver.retrieve_2captcha_v1_result ["ERROR_CAPTCHA_UNSOLVABLE"]
      = ⟨1, 0, .failure .captchaUnsolvable⟩ ∧
    ImageTyperzSolver.retrieve_imagetyperz_result
        ["[\x7b\"Status\":\"ERROR: IMAGE_TIMED_OUT\"\x7d]"]
      = ⟨1, 0, .failure .captchaUnsolvable⟩ :=
  ⟨C4_unsolvable_classification.1 "ERROR_CAPTCHA_UNSOLVABLE" [] rfl rfl,
   C4_unsolvable_classification.2.1 "[\x7b\"Status\":\"ERROR: IMAGE_TIMED_OUT\"\x7d]"
     (.arr (.cons (.obj (.cons "Status" (.str "ERROR: IMAGE_TIMED_OUT") .nil)) .nil))
     (.obj (.cons "Status" (.str "ERROR: IMAGE_TIMED_OUT") .nil))
     [] (by decide) rfl rfl rfl⟩

/-- Claim C5: when the first two poll bodies are classified as pending and
the third as solved, either adapter's poll loop performs exactly two
fixed-interval sleeps and exactly three status requests, then returns that
third body's payload — no extra status request and no premature success. -/
theorem C5_pending_twice_then_solved :
    (∀ b1 b2 b3 rest (v : Json),
      ImageTyperzSolver.retrieve_imagetyperz_step b1 = .ok none →
      ImageTyperzSolver.retrieve_imagetyperz_step b2 = .ok none →
      ImageTyperzSolver.retrieve_imagetyperz_step b3 = .ok (some v) →
      ImageTyperzSolver.retrieve_imagetyperz_result (b1 :: b2 :: b3 :: rest)
        = ⟨3, 2, .success v⟩) ∧
    (∀ b1 b2 b3 rest (v : String),
      TwoCaptchaSolver.retrieve_2captcha_v1_step b1 = .ok none →
      TwoCaptchaSolver.retrieve_2captcha_v1_step b2 = .ok none →
      TwoCaptchaSolver.retrieve_2captcha_v1_step b3 = .ok (some v) →
      TwoCaptchaSolver.retrieve_2captcha_v1_result (b1 :: b2 :: b3 :: rest)
        = ⟨3, 2, .success v⟩) := by
  constructor
  · intro b1 b2 b3 rest v h1 h2 h3
    simp [ImageTyperzSolver.retrieve_imagetyperz_result, h1, h2, h3]
  · intro b1 b2 b3 rest v h1 h2 h3
    simp [TwoCaptchaSolver.retrieve_2captcha_v1_result, h1, h2, h3]

/-- Witness for C5 with the reference pending/pending/solved scripts of the
two backends. -/
theorem C5_pending_twice_then_solved_witness :
    ImageTyperzSolver.retrieve_imagetyperz_result
        ["[\x7b\"Status\":\"Pending\"\x7d]", "[\x7b\"Status\":\"Pending\"\x7d]",
         "[\x7b\"Status\":\"Solved\",\"Response\":\"tok\"\x7d]"]
      = ⟨3, 2, .success (.str "tok")⟩ ∧
    TwoCaptchaSolver.retrieve_2captcha_v1_result
        ["CAPCHA_NOT_READY", "CAPCHA_NOT_READY", "OK|tok"]
      = ⟨3, 2, .success "tok"⟩ :=
  ⟨C5_pending_twice_then_solved.1 _ _ _ [] (.str "tok") rfl rfl rfl,
   C5_pending_twice_then_solved.2 _ _ _ [] "tok" rfl rfl rfl⟩

/-- Counterexample to claim C6: the body `OK` begins with the literal `OK`
yet the submit does not succeed — `"OK".split("|")[1]` raises an uncaught
`IndexError`. -/
theorem C6_submit_ok_without_pipe :
    pyStartsWith "OK" "OK" = true ∧
    TwoCaptchaSolver.submit_2captcha_v1_request "OK" = .error .indexError := ⟨rfl, rfl⟩

/-- Claim C6 as amended: the TwoCaptcha submit succeeds exactly on bodies
that begin with `OK` and contain at least one pipe; on success it returns
the field between the first and second pipe (`body.split("|")[1]`); a body
not beginning with `OK` raises `requests.HTTPError` (the retryable
`TransientServiceError`); an `OK` body without a pipe raises an uncaught
`IndexError`. -/
theorem C6_submit_characterization :
    (∀ body, (∃ jid, TwoCaptchaSolver.submit_2captcha_v1_request body = .ok jid) ↔
      (pyStartsWith body "OK" = true ∧ 2 ≤ (pySplit "|" body).length)) ∧
    (∀ body jid, pyStartsWith body "OK" = true →
      (pySplit "|" body).get? 1 = some jid →
      TwoCaptchaSolver.submit_2captcha_v1_request body = .ok jid) ∧
    (∀ body, pyStartsWith body "OK" = false →
      TwoCaptchaSolver.submit_2captcha_v1_request body = .error .httpError) ∧
    CaptchaSolver.retryable .httpError = true := by
  refine ⟨?_, ?_, ?_, rfl⟩
  · intro body
    constructor
    · rintro ⟨jid, h⟩
      unfold TwoCaptchaSolver.submit_2captcha_v1_request at h
      split at h
      · cases h
      · rename_i hOK
        refine ⟨by simpa using hOK, ?_⟩
        split at h
        · rename_i hg
          rcases List.get?_eq_some.mp hg with ⟨hlt, _⟩
          omega
        · cases h
    · rintro ⟨h1, h2⟩
      unfold TwoCaptchaSolver.submit_2captcha_v1_request
      rw [if_neg (by simp [h1])]
      cases hg : (pySplit "|" body).get? 1 with
      | none =>
        have := List.get?_eq_none.mp hg
        omega
      | some jid => exact ⟨jid, by simp⟩
  · intro body jid h1 h2
    unfold TwoCaptchaSolver.submit_2captcha_v1_request
    rw [if_neg (by simp [h1]), h2]
  · intro body h1
    unfold TwoCaptchaSolver.submit_2captcha_v1_request
    rw [if_pos (by simp [h1])]

/-- Witness for the amended C6 at the reference submit body `OK|123`. -/
theorem C6_submit_characterization_witness :
    TwoCaptchaSolver.submit_2captcha_v1_request "OK|123" = .ok "123" :=
  C6_submit_characterization.2.1 "OK|123" "123" rfl rfl

/-- When the TwoCaptcha poll loop ends in success, the payload came from
one of the scripted poll bodies via the solved branch of the loop body. -/
theorem retrieve_2captcha_success_from_body :
    ∀ polls (s : String),
      (TwoCaptchaSolver.retrieve_2captcha_v1_result polls).outcome = .success s →
      ∃ b ∈ polls, TwoCaptchaSolver.retrieve_2captcha_v1_step b = .ok (some s) := by
  intro polls
  induction polls with
  | nil =>
    intro s h
    simp [TwoCaptchaSolver.retrieve_2captcha_v1_result] at h
  | cons b rest ih =>
    intro s h
    unfold TwoCaptchaSolver.retrieve_2captcha_v1_result at h
    cases hb : TwoCaptchaSolver.retrieve_2captcha_v1_step b with
    | ok o =>
      cases o with
      | none =>
        rw [hb] at h
        simp at h
        rcases ih s h with ⟨b2, hmem, hstep⟩
        exact ⟨b2, List.mem_cons_of_mem b hmem, hstep⟩
      | some v =>
        rw [hb] at h
        simp at h
        exact ⟨b, List.mem_cons_self b rest, by rw [hb, h]⟩
    | error e =>
      rw [hb] at h
      simp at h

/-- Counterexample to claim C7: a successful solve whose response field is
the empty string — submit body `OK|1`, poll body `OK|` — so not every field
of a successful response is non-empty. -/
theorem C7_success_with_empty_field :
    TwoCaptchaSolver.solve_recaptcha "OK|1" ["OK|"]
      = ⟨1, 0, .success ⟨Json.str ""⟩⟩ := rfl

/-- Claim C7 as amended: on success the returned response is populated
verbatim from a poll body's payload — the text after the first pipe — which
the adapter does not check for non-emptiness, so a field is non-empty
exactly when that payload is. -/
theorem C7_success_round_trip :
    (∀ sb polls r,
      (TwoCaptchaSolver.solve_recaptcha sb polls).outcome = .success r →
      ∃ b ∈ polls, ∃ s, TwoCaptchaSolver.retrieve_2captcha_v1_step b = .ok (some s) ∧
        r = ⟨Json.str s⟩) ∧
    (∀ body s, TwoCaptchaSolver.retrieve_2captcha_v1_step body = .ok (some s) →
      (pySplitOnce "|" body).get? 1 = some s) := by
  constructor
  · intro sb polls r h
    unfold TwoCaptchaSolver.solve_recaptcha at h
    cases hsb : TwoCaptchaSolver.submit_2captcha_v1_request sb with
    | error e =>
      rw [hsb] at h
      simp at h
    | ok cid =>
      rw [hsb] at h
      simp only at h
      cases ho : (TwoCaptchaSolver.retrieve_2captcha_v1_result polls).outcome with
      | success s =>
        rw [ho] at h
        simp at h
        rcases retrieve_2captcha_success_from_body polls s ho with ⟨b, hmem, hstep⟩
        exact ⟨b, hmem, s, hstep, h.symm⟩
      | failure e =>
        rw [ho] at h
        simp at h
      | ranOut =>
        rw [ho] at h
        simp at h
  · intro body s h
    unfold TwoCaptchaSolver.retrieve_2captcha_v1_step at h
    split at h
    · simp at h
    · split at h
      · cases h
      · split at h
        · cases h
        · split at h
          · cases h
          · split at h
            · rename_i hg
              cases h
              exact hg
            · cases h

/-- Witness for the amended C7: the solve with submit body `OK|1` and poll
body `OK|x` succeeds, and its response is the payload `x` verbatim. -/
theorem C7_success_round_trip_witness :
    ∃ b ∈ ["OK|x"], ∃ s,
      TwoCaptchaSolver.retrieve_2captcha_v1_step b = .ok (some s) ∧
      (⟨Json.str "x"⟩ : RecaptchaResponse) = ⟨Json.str s⟩ :=
  C7_success_round_trip.1 "OK|1" ["OK|x"] ⟨Json.str "x"⟩ rfl

/-- Claim C9: when the ImageTyperz GeeTest result body fails JSON parsing
and splits on `;;;` into fewer than three parts, the fallback raises an
uncaught `IndexError` (no taxonomy error); with at least three parts the
fallback always succeeds. -/
theorem C9_delim_fallback_short_split :
    ∀ result e, json_loads result = .error e →
      ((pySplit ";;;" result).length < 3 →
        ImageTyperzSolver.parse_geetest_result result = .error .indexError ∧
        inErrorTaxonomy .indexError = false) ∧
      (3 ≤ (pySplit ";;;" result).length →
        ∃ g, ImageTyperzSolver.parse_geetest_result result = .ok g) := by
  intro result e h
  have hp : ImageTyperzSolver.parse_geetest_result result
      = ImageTyperzSolver.geetest_from_delims result := by
    unfold ImageTyperzSolver.parse_geetest_result
    rw [h]
  constructor
  · intro hlen
    refine ⟨?_, rfl⟩
    rw [hp]
    unfold ImageTyperzSolver.geetest_from_delims
    have h2 : (pySplit ";;;" result).get? 2 = none :=
      List.get?_eq_none.mpr (by omega)
    rw [List.get?_eq_getElem?] at h2
    cases h0 : (pySplit ";;;" result)[0]? <;>
      cases h1 : (pySplit ";;;" result)[1]? <;>
        simp [h0, h1, h2]
  · intro hlen
    rw [hp]
    unfold ImageTyperzSolver.geetest_from_delims
    cases h0 : (pySplit ";;;" result).get? 0 with
    | none => exact absurd (List.get?_eq_none.mp h0) (by omega)
    | some p0 =>
      cases h1 : (pySplit ";;;" result).get? 1 with
      | none => exact absurd (List.get?_eq_none.mp h1) (by omega)
      | some p1 =>
        cases h2 : (pySplit ";;;" result).get? 2 with
        | none => exact absurd (List.get?_eq_none.mp h2) (by omega)
        | some p2 =>
          refine ⟨⟨.str p0, .str p1, .str p2⟩, ?_⟩
          rw [List.get?_eq_getElem?] at h0 h1 h2
          simp [h0, h1, h2]

/-- Witness for C9 at the short body `ab` (one part) and the reference
body `a;;;b;;;c` (three parts). -/
theorem C9_delim_fallback_witness :
    (ImageTyperzSolver.parse_geetest_result "ab" = .error .indexError ∧
      inErrorTaxonomy .indexError = false) ∧
    ∃ g, ImageTyperzSolver.parse_geetest_result "a;;;b;;;c" = .ok g :=
  ⟨(C9_delim_fallback_short_split "ab" .jsonDecodeError rfl).1 (by decide),
   (C9_delim_fallback_short_split "a;;;b;;;c" .jsonDecodeError rfl).2 (by decide)⟩
